import Mathlib

/-!
Shallow embedding of `src/xenia/ui/windowed_app_context_android.cc`
(class `AndroidWindowedAppContext`, the cross-thread command bridge of the
Android windowed-app context).

Each C++ member function is translated to a pure Lean function.  Outcomes of
external calls (`write`, `read`, JNI reference creation, `ALooper_forThread`,
`pipe`, `ALooper_addFd`) are passed in as parameters, and the side effects the
function performs (logging, waking the looper, `delete this`, calls into the
`WindowedApp`, releasing handles) are returned in explicit effect records.
Pointer-valued fields are modelled as `Bool` (non-null or null); the two pipe
file descriptors are `Int` with `-1` meaning "closed", exactly the convention
`Shutdown` relies on in the source.
-/

namespace AndroidWindowedAppContext

/-- Looper event bits from the NDK header `android/looper.h`:
`ALOOPER_EVENT_INPUT = 1 << 0`. -/
def ALOOPER_EVENT_INPUT : Nat := 1

/-- `ALOOPER_EVENT_OUTPUT = 1 << 1`. -/
def ALOOPER_EVENT_OUTPUT : Nat := 2

/-- `ALOOPER_EVENT_ERROR = 1 << 2`. -/
def ALOOPER_EVENT_ERROR : Nat := 4

/-- `ALOOPER_EVENT_HANGUP = 1 << 3`. -/
def ALOOPER_EVENT_HANGUP : Nat := 8

/-- `ALOOPER_EVENT_INVALID = 1 << 4`. -/
def ALOOPER_EVENT_INVALID : Nat := 16

/-- The commands sent through the UI-thread looper callback pipe
(`UIThreadLooperCallbackCommand` in the source). -/
inductive UIThreadLooperCallbackCommand where
  | kExecutePendingFunctions
  | kDestroy
deriving DecidableEq, Repr

/-- `sizeof(UIThreadLooperCallbackCommand)`: the commands are a fixed-size
scoped enum (underlying type `int`, 4 bytes).  `write` and `read` transfer
records of exactly this size; any other transferred count is the anomalous
case in the source's comparisons `!= sizeof(command)`. -/
def sizeofCommand : Int := 4

/-- The fields of `AndroidWindowedAppContext` that the translated member
functions touch, with the source names.  Pointers are `Bool` (non-null?);
the pipe array `ui_thread_looper_callback_pipe_` is split into its two `Int`
elements, `-1` meaning "no descriptor". -/
structure BridgeState where
  ui_thread_jni_env_ : Bool
  asset_manager_jobject_ : Bool
  asset_manager_ : Bool
  configuration_ : Bool
  android_base_initialized_ : Bool
  activity_ : Bool
  activity_class_ : Bool
  activity_method_finish_ : Bool
  ui_thread_looper_ : Bool
  ui_thread_looper_callback_pipe_read : Int
  ui_thread_looper_callback_pipe_write : Int
  ui_thread_looper_callback_registered_ : Bool
  activity_window_ : Bool
  app_ : Bool
deriving DecidableEq, Repr

/-- Modelled from the spec: the header `windowed_app_context_android.h` is not
in `src/`; per §3 of the spec the Bridge starts with no acquired resources
(null pointers, closed channel, registration flag false), the convention
`Shutdown` in the `.cc` relies on for a partially-constructed object. -/
def initialState : BridgeState where
  ui_thread_jni_env_ := false
  asset_manager_jobject_ := false
  asset_manager_ := false
  configuration_ := false
  android_base_initialized_ := false
  activity_ := false
  activity_class_ := false
  activity_method_finish_ := false
  ui_thread_looper_ := false
  ui_thread_looper_callback_pipe_read := -1
  ui_thread_looper_callback_pipe_write := -1
  ui_thread_looper_callback_registered_ := false
  activity_window_ := false
  app_ := false

/-- The release-type side effects `Shutdown` performs, as counts (and the list
of file descriptors passed to `close`, in order). -/
structure ShutdownEffects where
  invokeOnDestroyCount : Nat
  removeFdCount : Nat
  closedFds : List Int
  looperReleaseCount : Nat
  deleteGlobalRefCount : Nat
  shutdownAndroidBaseCount : Nat
  configurationDeleteCount : Nat
deriving DecidableEq, Repr

/-- `ShutdownEffects` of a call that released nothing. -/
def noShutdownEffects : ShutdownEffects where
  invokeOnDestroyCount := 0
  removeFdCount := 0
  closedFds := []
  looperReleaseCount := 0
  deleteGlobalRefCount := 0
  shutdownAndroidBaseCount := 0
  configurationDeleteCount := 0

/-- `AndroidWindowedAppContext::Shutdown` (lines 224-279).  Every guarded
release (`if (field) { release; field = cleared; }`) is translated to an
effect count conditional on the field and the cleared field value; the loop
`for (int& pipe_fd : ui_thread_looper_callback_pipe_)` closes the read end
then the write end when they are not `-1` and sets them to `-1`. -/
def Shutdown (s : BridgeState) : BridgeState × ShutdownEffects :=
  let invokeOnDestroyCount := if s.app_ then 1 else 0
  let removeFdCount := if s.ui_thread_looper_callback_registered_ then 1 else 0
  let closedFds :=
    (if s.ui_thread_looper_callback_pipe_read ≠ -1 then
      [s.ui_thread_looper_callback_pipe_read] else []) ++
    (if s.ui_thread_looper_callback_pipe_write ≠ -1 then
      [s.ui_thread_looper_callback_pipe_write] else [])
  let looperReleaseCount := if s.ui_thread_looper_ then 1 else 0
  let deleteGlobalRefCount :=
    (if s.activity_class_ then 1 else 0) + (if s.activity_ then 1 else 0) +
      (if s.asset_manager_jobject_ then 1 else 0)
  let shutdownAndroidBaseCount := if s.android_base_initialized_ then 1 else 0
  let configurationDeleteCount := if s.configuration_ then 1 else 0
  (⟨false, false, false, false, false, false, false, false, false, -1, -1,
     false, false, false⟩,
   { invokeOnDestroyCount, removeFdCount, closedFds, looperReleaseCount,
     deleteGlobalRefCount, shutdownAndroidBaseCount, configurationDeleteCount })

/-- The effects of one `UIThreadLooperCallback` invocation (lines 308-364).
`ret` is the callback's return value (`0` tells the looper to unregister the
descriptor, `1` keeps it); `flagAssignedFalse` records an assignment
`ui_thread_looper_callback_registered_ = false`; `registeredAfter` is the
flag value when the callback returns; `readPerformed` records whether a
`read` on the pipe was executed at all. -/
structure CallbackResult where
  ret : Int
  flagAssignedFalse : Bool
  registeredAfter : Bool
  quitCalled : Bool
  deletedBridge : Bool
  executedPendingFunctions : Bool
  loggedError : Bool
  readPerformed : Bool
deriving DecidableEq, Repr

/-- `AndroidWindowedAppContext::UIThreadLooperCallback` (lines 308-364).
`events` is the looper event bitmask; `readResult` is what
`read(fd, &command, sizeof(command))` returns when a read is performed, and
`readCommand` the command the read places in the buffer when it transfers the
full `sizeof(command)` bytes.  The source's `switch` on the read result
(cases `sizeof(command)`, `-1`, `default`) and the `switch` on the command
are translated branch for branch. -/
def UIThreadLooperCallback (s : BridgeState) (events : Nat) (readResult : Int)
    (readCommand : UIThreadLooperCallbackCommand) : CallbackResult :=
  if events &&&
      (ALOOPER_EVENT_ERROR ||| ALOOPER_EVENT_HANGUP ||| ALOOPER_EVENT_INVALID)
      ≠ 0 then
    { ret := 0, flagAssignedFalse := true, registeredAfter := false,
      quitCalled := true, deletedBridge := false,
      executedPendingFunctions := false, loggedError := true,
      readPerformed := false }
  else if events &&& ALOOPER_EVENT_INPUT = 0 then
    -- Spurious callback call.  Need a non-empty pipe.
    { ret := 1, flagAssignedFalse := false,
      registeredAfter := s.ui_thread_looper_callback_registered_,
      quitCalled := false, deletedBridge := false,
      executedPendingFunctions := false, loggedError := false,
      readPerformed := false }
  else if readResult = sizeofCommand then
    match readCommand with
    | .kDestroy =>
      { ret := 0, flagAssignedFalse := true, registeredAfter := false,
        quitCalled := false, deletedBridge := true,
        executedPendingFunctions := false, loggedError := false,
        readPerformed := true }
    | .kExecutePendingFunctions =>
      { ret := 1, flagAssignedFalse := false,
        registeredAfter := s.ui_thread_looper_callback_registered_,
        quitCalled := false, deletedBridge := false,
        executedPendingFunctions := true, loggedError := false,
        readPerformed := true }
  else if readResult = -1 then
    { ret := 0, flagAssignedFalse := true, registeredAfter := false,
      quitCalled := true, deletedBridge := false,
      executedPendingFunctions := false, loggedError := true,
      readPerformed := true }
  else
    -- Something like incomplete data - not dispatched, not a reported error.
    { ret := 1, flagAssignedFalse := false,
      registeredAfter := s.ui_thread_looper_callback_registered_,
      quitCalled := false, deletedBridge := false,
      executedPendingFunctions := false, loggedError := false,
      readPerformed := true }

/-- The effects of one `RequestDestruction` call: whether `delete this` ran in
the calling thread, which command (if any) a `write` to the pipe was attempted
with, and whether the failure log / `ALooper_wake` ran. -/
structure RequestDestructionResult where
  deletedHere : Bool
  writeAttempted : Option UIThreadLooperCallbackCommand
  loggedError : Bool
  wokeLooper : Bool
deriving DecidableEq, Repr

/-- `AndroidWindowedAppContext::RequestDestruction` (lines 281-306).
`writeResult` is what `write(pipe[1], &command, sizeof(command))` returns when
the write is reached. -/
def RequestDestruction (s : BridgeState) (writeResult : Int) :
    RequestDestructionResult :=
  if !s.ui_thread_looper_callback_registered_ then
    { deletedHere := true, writeAttempted := none, loggedError := false,
      wokeLooper := false }
  else if writeResult ≠ sizeofCommand then
    { deletedHere := true, writeAttempted := some .kDestroy,
      loggedError := true, wokeLooper := false }
  else
    { deletedHere := false, writeAttempted := some .kDestroy,
      loggedError := false, wokeLooper := true }

/-- The effects of one `NotifyUILoopOfPendingFunctions` call.
`writesAttempted` counts the `write` calls performed (the source performs
exactly one and never retries). -/
structure NotifyResult where
  writesAttempted : Nat
  commandWritten : UIThreadLooperCallbackCommand
  loggedError : Bool
  wokeLooper : Bool
deriving DecidableEq, Repr

/-- `AndroidWindowedAppContext::NotifyUILoopOfPendingFunctions` (lines 30-46).
The function assigns no member field, so the state passes through unchanged;
on a short or failed write it logs and returns before `ALooper_wake`. -/
def NotifyUILoopOfPendingFunctions (s : BridgeState) (writeResult : Int) :
    BridgeState × NotifyResult :=
  if writeResult ≠ sizeofCommand then
    (s, { writesAttempted := 1, commandWritten := .kExecutePendingFunctions,
          loggedError := true, wokeLooper := false })
  else
    (s, { writesAttempted := 1, commandWritten := .kExecutePendingFunctions,
          loggedError := false, wokeLooper := true })

/-- Outcomes of the external calls `Initialize` makes, in source order:
JNI global-reference creation, `AAssetManager_fromJava`, `AConfiguration_new`,
the activity class lookup, `GetMethodID`, `ALooper_forThread` (non-null?),
`pipe` (success, and the two descriptors it fills in), `ALooper_addFd`
(returned `1`?). -/
structure InitEnv where
  assetManagerGlobalRefOk : Bool
  assetManagerFromJavaOk : Bool
  configurationNewOk : Bool
  activityGlobalRefOk : Bool
  activityClassLocalRefOk : Bool
  activityClassGlobalRefOk : Bool
  methodFinishOk : Bool
  looperForThreadOk : Bool
  pipeOk : Bool
  pipeReadFd : Int
  pipeWriteFd : Int
  addFdOk : Bool
deriving DecidableEq, Repr

/-- Looper-handle effects of one `Initialize` run: `ALooper_acquire` calls
performed, and `ALooper_release` calls performed by the `Shutdown` rollback a
failing path invokes. -/
structure InitEffects where
  looperAcquires : Nat
  looperReleases : Nat
deriving DecidableEq, Repr

/-- `AndroidWindowedAppContext::Initialize` (lines 108-222), starting from a
freshly constructed object.  Each `if (!...) { log; Shutdown(); return false; }`
failure path is translated with its `Shutdown` call; `ALooper_acquire` runs
exactly at line 202, after `ALooper_forThread` returned non-null.  Returns
(success, final state, looper-handle effects).  (Named `InitializeContext`
for `Initialize`.) -/
def InitializeContext (env : InitEnv) : Bool × BridgeState × InitEffects :=
  let fail (s : BridgeState) (acq : Nat) : Bool × BridgeState × InitEffects :=
    let (s', eff) := Shutdown s
    (false, s', { looperAcquires := acq, looperReleases := eff.looperReleaseCount })
  let s := { initialState with ui_thread_jni_env_ := true }
  if !env.assetManagerGlobalRefOk then fail s 0 else
  let s := { s with asset_manager_jobject_ := true }
  if !env.assetManagerFromJavaOk then fail s 0 else
  let s := { s with asset_manager_ := true }
  if !env.configurationNewOk then fail s 0 else
  let s := { s with configuration_ := true }
  -- xe::InitializeAndroidAppFromMainThread(...)
  let s := { s with android_base_initialized_ := true }
  if !env.activityGlobalRefOk then fail s 0 else
  let s := { s with activity_ := true }
  if !env.activityClassLocalRefOk then fail s 0 else
  let s := { s with activity_class_ := env.activityClassGlobalRefOk }
  if !env.activityClassGlobalRefOk then fail s 0 else
  if !env.methodFinishOk then fail s 0 else
  let s := { s with activity_method_finish_ := true }
  let s := { s with ui_thread_looper_ := env.looperForThreadOk }
  if !env.looperForThreadOk then fail s 0 else
  -- ALooper_acquire(ui_thread_looper_)
  if !env.pipeOk then fail s 1 else
  let s := { s with ui_thread_looper_callback_pipe_read := env.pipeReadFd,
                    ui_thread_looper_callback_pipe_write := env.pipeWriteFd }
  if !env.addFdOk then fail s 1 else
  let s := { s with ui_thread_looper_callback_registered_ := true }
  (true, s, { looperAcquires := 1, looperReleases := 0 })

/-- Control in `Initialize` reaches the `ALooper_acquire` call (line 202) iff
every step before it succeeded and `ALooper_forThread` returned non-null. -/
def reachesLooperAcquire (env : InitEnv) : Bool :=
  env.assetManagerGlobalRefOk && env.assetManagerFromJavaOk &&
    env.configurationNewOk && env.activityGlobalRefOk &&
    env.activityClassLocalRefOk && env.activityClassGlobalRefOk &&
    env.methodFinishOk && env.looperForThreadOk

/-- `AndroidWindowedAppContext::InitializeApp` (lines 366-376).
`appCreatedNonNull` is whether `app_creator(*this)` produced a non-null
application; `onInitializeResult` the result of its `OnInitialize()`.
Returns `none` when the call `app_->OnInitialize()` dereferences a null
`app_` — the source performs no null check between the factory call and this
dereference.  Otherwise returns (the `bool` the function returns, the
resulting state, the number of `InvokeOnDestroy` calls performed on the
application). -/
def InitializeApp (s : BridgeState) (appCreatedNonNull : Bool)
    (onInitializeResult : Bool) : Option (Bool × BridgeState × Nat) :=
  let s := { s with app_ := appCreatedNonNull }
  if !s.app_ then none
  else if !onInitializeResult then
    -- app_->InvokeOnDestroy(); app_.reset(); return false;
    some (false, { s with app_ := false }, 1)
  else
    some (true, s, 0)

/-- `AndroidWindowedAppContext::JniActivityInitializeWindowedAppOnCreate`
(lines 55-96), which the JNI entry point
`initializeWindowedAppOnCreateNative` returns directly (cast to `jlong`).
Outer `none` means undefined behaviour was reached (the null dereference in
`InitializeApp`); `some none` means the function returns `nullptr`;
`some (some s)` means it returns a pointer to a context in state `s`.
`destroyWriteResult` parameterises the `write` inside the
`RequestDestruction` call of the `InitializeApp` failure path. -/
def JniActivityInitializeWindowedAppOnCreate (utfCharsOk creatorFound : Bool)
    (env : InitEnv) (appCreatedNonNull onInitializeResult : Bool)
    (destroyWriteResult : Int) : Option (Option BridgeState) :=
  if !utfCharsOk then some none
  else if !creatorFound then some none
  else
    let (initOk, s, _) := InitializeContext env
    -- on failure: delete app_context (its destructor runs Shutdown); nullptr
    if !initOk then some none
    else
      match InitializeApp s appCreatedNonNull onInitializeResult with
      | none => none
      | some (ok, s', _) =>
        if !ok then
          -- app_context->RequestDestruction(); return nullptr;
          let _ := RequestDestruction s' destroyWriteResult
          some none
        else some (some s')

/-- A Bridge state whose looper-callback registration flag is set, as after a
successful `Initialize`. -/
def registeredState : BridgeState :=
  { initialState with ui_thread_looper_callback_registered_ := true }

/-- C1 counterexample: `RequestDestruction` called while the registration flag
is true, with a `write` that transfers 0 bytes (≠ `sizeof(command)`): the
Bridge IS deleted in the calling thread during that call (source lines
297-304), contradicting the claim that it never is while registered. -/
theorem requestDestruction_registered_short_write_deletes_here :
    (RequestDestruction registeredState 0).deletedHere = true := by decide

/-- C1 (amended): for every `RequestDestruction` call made while the
registration flag is true whose `write` of the `Destroy` command transfers
`sizeof(command)` bytes, the Bridge is not deleted in the calling thread: the
command is enqueued and the looper woken, and a callback invocation deletes
the Bridge only when it dequeues a full `Destroy` command (returning 0); if
the write transfers any other count the failure is logged and the Bridge is
deleted immediately in the calling thread. -/
theorem requestDestruction_registered_deferred (s : BridgeState) (w : Int)
    (hreg : s.ui_thread_looper_callback_registered_ = true)
    (hw : w = sizeofCommand) (s' : BridgeState) (events : Nat) (r : Int)
    (c : UIThreadLooperCallbackCommand) :
    (RequestDestruction s w).deletedHere = false ∧
    (RequestDestruction s w).writeAttempted = some .kDestroy ∧
    (RequestDestruction s w).wokeLooper = true ∧
    ((UIThreadLooperCallback s' events r c).deletedBridge = true →
      r = sizeofCommand ∧ c = .kDestroy ∧
      (UIThreadLooperCallback s' events r c).ret = 0) ∧
    (∀ w', w' ≠ sizeofCommand →
      (RequestDestruction s w').deletedHere = true ∧
      (RequestDestruction s w').loggedError = true) := by
  subst hw
  refine ⟨by simp [RequestDestruction, hreg], by simp [RequestDestruction, hreg],
    by simp [RequestDestruction, hreg], ?_, ?_⟩
  · unfold UIThreadLooperCallback
    by_cases he : events &&&
        (ALOOPER_EVENT_ERROR ||| ALOOPER_EVENT_HANGUP ||| ALOOPER_EVENT_INVALID)
        = 0 <;>
      by_cases hi : events &&& ALOOPER_EVENT_INPUT = 0 <;>
      by_cases hr : r = sizeofCommand <;>
      by_cases hr1 : r = -1 <;>
      cases c <;> simp_all
  · intro w' hw'
    simp [RequestDestruction, hreg, hw']

/-- Witness for the C1 amended theorem at a concrete registered state, a full
4-byte write, and a callback invocation that dequeues `Destroy`. -/
theorem requestDestruction_registered_deferred_witness :
    (RequestDestruction registeredState 4).deletedHere = false ∧
    (RequestDestruction registeredState 4).writeAttempted = some .kDestroy ∧
    (RequestDestruction registeredState 4).wokeLooper = true ∧
    ((UIThreadLooperCallback initialState 1 4
        .kDestroy).deletedBridge = true →
      (4 : Int) = sizeofCommand ∧
      UIThreadLooperCallbackCommand.kDestroy =
        UIThreadLooperCallbackCommand.kDestroy ∧
      (UIThreadLooperCallback initialState 1 4 .kDestroy).ret = 0) ∧
    (∀ w', w' ≠ sizeofCommand →
      (RequestDestruction registeredState w').deletedHere = true ∧
      (RequestDestruction registeredState w').loggedError = true) :=
  requestDestruction_registered_deferred registeredState 4 rfl rfl
    initialState 1 4 .kDestroy

/-- C2: for every `RequestDestruction` call made while the registration flag
is false, the Bridge is deleted synchronously in the calling thread, no
command write is attempted, nothing is logged and the looper is not woken
(source lines 291-294). -/
theorem requestDestruction_unregistered_immediate (s : BridgeState) (w : Int)
    (hreg : s.ui_thread_looper_callback_registered_ = false) :
    RequestDestruction s w =
      { deletedHere := true, writeAttempted := none, loggedError := false,
        wokeLooper := false } := by
  simp [RequestDestruction, hreg]

/-- Witness for C2 at the initial (unregistered) state. -/
theorem requestDestruction_unregistered_immediate_witness :
    RequestDestruction initialState 0 =
      { deletedHere := true, writeAttempted := none, loggedError := false,
        wokeLooper := false } :=
  requestDestruction_unregistered_immediate initialState 0 rfl

/-- C3: a callback invocation whose events contain an error, hangup or
invalid bit, and a callback invocation whose `read` returns `-1`, both set
the registration flag to false, invoke `QuitFromUIThread`, log, and return 0;
the two cases produce identical handling effects (all effect fields agree
except that the second occurs after a read was attempted). -/
theorem callback_fatal_conditions_identical (s s' : BridgeState)
    (events events' : Nat) (r r' : Int)
    (c c' : UIThreadLooperCallbackCommand)
    (he : events &&&
      (ALOOPER_EVENT_ERROR ||| ALOOPER_EVENT_HANGUP ||| ALOOPER_EVENT_INVALID)
      ≠ 0)
    (he' : events' &&&
      (ALOOPER_EVENT_ERROR ||| ALOOPER_EVENT_HANGUP ||| ALOOPER_EVENT_INVALID)
      = 0)
    (hi' : events' &&& ALOOPER_EVENT_INPUT ≠ 0) (hr' : r' = -1) :
    (UIThreadLooperCallback s events r c).ret = 0 ∧
    (UIThreadLooperCallback s events r c).flagAssignedFalse = true ∧
    (UIThreadLooperCallback s events r c).quitCalled = true ∧
    (UIThreadLooperCallback s' events' r' c').ret = 0 ∧
    (UIThreadLooperCallback s' events' r' c').flagAssignedFalse = true ∧
    (UIThreadLooperCallback s' events' r' c').quitCalled = true ∧
    ((UIThreadLooperCallback s events r c).ret,
     (UIThreadLooperCallback s events r c).flagAssignedFalse,
     (UIThreadLooperCallback s events r c).registeredAfter,
     (UIThreadLooperCallback s events r c).quitCalled,
     (UIThreadLooperCallback s events r c).deletedBridge,
     (UIThreadLooperCallback s events r c).executedPendingFunctions,
     (UIThreadLooperCallback s events r c).loggedError) =
    ((UIThreadLooperCallback s' events' r' c').ret,
     (UIThreadLooperCallback s' events' r' c').flagAssignedFalse,
     (UIThreadLooperCallback s' events' r' c').registeredAfter,
     (UIThreadLooperCallback s' events' r' c').quitCalled,
     (UIThreadLooperCallback s' events' r' c').deletedBridge,
     (UIThreadLooperCallback s' events' r' c').executedPendingFunctions,
     (UIThreadLooperCallback s' events' r' c').loggedError) := by
  subst hr'
  simp [UIThreadLooperCallback, he, he', hi', sizeofCommand]

/-- Witness for C3: events with the hangup bit set, and an input-only event
set with a failed read. -/
theorem callback_fatal_conditions_identical_witness :
    (UIThreadLooperCallback initialState 8 0 .kDestroy).ret = 0 ∧
    (UIThreadLooperCallback initialState 8 0 .kDestroy).flagAssignedFalse =
      true ∧
    (UIThreadLooperCallback initialState 8 0 .kDestroy).quitCalled = true ∧
    (UIThreadLooperCallback initialState 1 (-1) .kDestroy).ret = 0 ∧
    (UIThreadLooperCallback initialState 1 (-1)
      .kDestroy).flagAssignedFalse = true ∧
    (UIThreadLooperCallback initialState 1 (-1) .kDestroy).quitCalled =
      true ∧
    ((UIThreadLooperCallback initialState 8 0 .kDestroy).ret,
     (UIThreadLooperCallback initialState 8 0 .kDestroy).flagAssignedFalse,
     (UIThreadLooperCallback initialState 8 0 .kDestroy).registeredAfter,
     (UIThreadLooperCallback initialState 8 0 .kDestroy).quitCalled,
     (UIThreadLooperCallback initialState 8 0 .kDestroy).deletedBridge,
     (UIThreadLooperCallback initialState 8 0
       .kDestroy).executedPendingFunctions,
     (UIThreadLooperCallback initialState 8 0 .kDestroy).loggedError) =
    ((UIThreadLooperCallback initialState 1 (-1) .kDestroy).ret,
     (UIThreadLooperCallback initialState 1 (-1)
       .kDestroy).flagAssignedFalse,
     (UIThreadLooperCallback initialState 1 (-1)
       .kDestroy).registeredAfter,
     (UIThreadLooperCallback initialState 1 (-1) .kDestroy).quitCalled,
     (UIThreadLooperCallback initialState 1 (-1) .kDestroy).deletedBridge,
     (UIThreadLooperCallback initialState 1 (-1)
       .kDestroy).executedPendingFunctions,
     (UIThreadLooperCallback initialState 1 (-1) .kDestroy).loggedError) :=
  callback_fatal_conditions_identical initialState initialState 8 1 0 (-1)
    .kDestroy .kDestroy (by decide) (by decide) (by decide) rfl

/-- C4: a callback invocation with readable input and no error condition
whose `read` transfers neither `sizeof(command)` bytes nor `-1` dispatches no
command: it returns 1, leaves the registration flag untouched, deletes
nothing, and calls neither the quit path nor the pending-functions runner
(source lines 346-349). -/
theorem callback_partial_read_ignored (s : BridgeState) (events : Nat)
    (r : Int) (c : UIThreadLooperCallbackCommand)
    (he : events &&&
      (ALOOPER_EVENT_ERROR ||| ALOOPER_EVENT_HANGUP ||| ALOOPER_EVENT_INVALID)
      = 0)
    (hi : events &&& ALOOPER_EVENT_INPUT ≠ 0)
    (hr1 : r ≠ sizeofCommand) (hr2 : r ≠ -1) :
    UIThreadLooperCallback s events r c =
      { ret := 1, flagAssignedFalse := false,
        registeredAfter := s.ui_thread_looper_callback_registered_,
        quitCalled := false, deletedBridge := false,
        executedPendingFunctions := false, loggedError := false,
        readPerformed := true } := by
  simp [UIThreadLooperCallback, he, hi, hr1, hr2]

/-- Witness for C4: input event, a read that transferred 2 bytes. -/
theorem callback_partial_read_ignored_witness :
    UIThreadLooperCallback registeredState 1 2 .kDestroy =
      { ret := 1, flagAssignedFalse := false,
        registeredAfter :=
          registeredState.ui_thread_looper_callback_registered_,
        quitCalled := false, deletedBridge := false,
        executedPendingFunctions := false, loggedError := false,
        readPerformed := true } :=
  callback_partial_read_ignored registeredState 1 2 .kDestroy (by decide)
    (by decide) (by decide) (by decide)

/-- C5: every `NotifyUILoopOfPendingFunctions` call whose `write` transfers a
count other than `sizeof(command)` logs the failure and returns normally:
exactly one write is attempted (no retry), no failure is propagated (the
function totally returns its unchanged state), no Bridge field changes, and
the looper is not woken (source lines 38-44). -/
theorem notify_short_write_best_effort (s : BridgeState) (w : Int)
    (hw : w ≠ sizeofCommand) :
    NotifyUILoopOfPendingFunctions s w =
      (s, { writesAttempted := 1,
            commandWritten := .kExecutePendingFunctions,
            loggedError := true, wokeLooper := false }) := by
  simp [NotifyUILoopOfPendingFunctions, hw]

/-- Witness for C5 at a concrete registered state and a 0-byte write. -/
theorem notify_short_write_best_effort_witness :
    NotifyUILoopOfPendingFunctions registeredState 0 =
      (registeredState,
       { writesAttempted := 1, commandWritten := .kExecutePendingFunctions,
         loggedError := true, wokeLooper := false }) :=
  notify_short_write_best_effort registeredState 0 (by decide)

/-- An `InitEnv` in which every external call of `Initialize` succeeds and
`pipe` fills in descriptors 3 and 4. -/
def allOkInitEnv : InitEnv :=
  ⟨true, true, true, true, true, true, true, true, true, 3, 4, true⟩

/-- C6: whenever the created application's `OnInitialize()` returns false,
`InitializeApp` calls `InvokeOnDestroy` exactly once, clears the owned
application reference, and returns false; a subsequent `Shutdown` performs no
further `InvokeOnDestroy` (so no path calls it twice), and the JNI
construction entry point returns `nullptr` rather than a partially
initialized Bridge. -/
theorem initializeApp_failure_rollback (s : BridgeState) (env : InitEnv)
    (w : Int) (hinit : (InitializeContext env).1 = true) :
    InitializeApp s true false =
      some (false, { s with app_ := false }, 1) ∧
    ({ s with app_ := false } : BridgeState).app_ = false ∧
    (Shutdown { s with app_ := false }).2.invokeOnDestroyCount = 0 ∧
    JniActivityInitializeWindowedAppOnCreate true true env true false w =
      some none := by
  refine ⟨rfl, rfl, by simp [Shutdown], ?_⟩
  rcases hE : InitializeContext env with ⟨ok, s0, eff⟩
  have hok : ok = true := by rw [hE] at hinit; exact hinit
  subst hok
  simp [JniActivityInitializeWindowedAppOnCreate, hE, InitializeApp]

/-- Witness for C6 with the all-successful initialization environment. -/
theorem initializeApp_failure_rollback_witness :
    InitializeApp initialState true false =
      some (false, { initialState with app_ := false }, 1) ∧
    ({ initialState with app_ := false } : BridgeState).app_ = false ∧
    (Shutdown { initialState with app_ := false }).2.invokeOnDestroyCount =
      0 ∧
    JniActivityInitializeWindowedAppOnCreate true true allOkInitEnv true
      false 0 = some none :=
  initializeApp_failure_rollback initialState allOkInitEnv 0 (by decide)

/-- C7: across every execution of `Initialize`, `ALooper_acquire` is called
at most once, and exactly once iff control reaches the looper-acquisition
step (all preceding steps succeeded and `ALooper_forThread` returned
non-null).  On success no release has happened yet, the handle is held, the
first `Shutdown` releases it exactly once and a second `Shutdown` does not
release again; on failure the rollback has released exactly as many times as
acquired, the handle field is null, and a further `Shutdown` releases
nothing. -/
theorem looper_acquired_released_once (env : InitEnv) :
    (InitializeContext env).2.2.looperAcquires ≤ 1 ∧
    ((InitializeContext env).2.2.looperAcquires = 1 ↔
      reachesLooperAcquire env = true) ∧
    ((InitializeContext env).1 = true →
      (InitializeContext env).2.2.looperReleases = 0 ∧
      (InitializeContext env).2.1.ui_thread_looper_ = true ∧
      (Shutdown (InitializeContext env).2.1).2.looperReleaseCount = 1 ∧
      (Shutdown (Shutdown
        (InitializeContext env).2.1).1).2.looperReleaseCount = 0) ∧
    ((InitializeContext env).1 = false →
      (InitializeContext env).2.2.looperReleases =
        (InitializeContext env).2.2.looperAcquires ∧
      (InitializeContext env).2.1.ui_thread_looper_ = false ∧
      (Shutdown (InitializeContext env).2.1).2.looperReleaseCount = 0) := by
  obtain ⟨a, b, c, d, e, f, g, l, p, rfd, wfd, q⟩ := env
  cases a
  · simp [InitializeContext, Shutdown, reachesLooperAcquire, initialState]
  cases b
  · simp [InitializeContext, Shutdown, reachesLooperAcquire, initialState]
  cases c
  · simp [InitializeContext, Shutdown, reachesLooperAcquire, initialState]
  cases d
  · simp [InitializeContext, Shutdown, reachesLooperAcquire, initialState]
  cases e
  · simp [InitializeContext, Shutdown, reachesLooperAcquire, initialState]
  cases f
  · simp [InitializeContext, Shutdown, reachesLooperAcquire, initialState]
  cases g
  · simp [InitializeContext, Shutdown, reachesLooperAcquire, initialState]
  cases l
  · simp [InitializeContext, Shutdown, reachesLooperAcquire, initialState]
  cases p
  · simp [InitializeContext, Shutdown, reachesLooperAcquire, initialState]
  cases q
  · simp [InitializeContext, Shutdown, reachesLooperAcquire, initialState]
  · simp [InitializeContext, Shutdown, reachesLooperAcquire, initialState]

/-- Witness for C7: the success part at the all-successful environment. -/
theorem looper_acquired_released_once_witness :
    (InitializeContext allOkInitEnv).2.2.looperAcquires ≤ 1 ∧
    ((InitializeContext allOkInitEnv).2.2.looperAcquires = 1 ↔
      reachesLooperAcquire allOkInitEnv = true) ∧
    ((InitializeContext allOkInitEnv).1 = true →
      (InitializeContext allOkInitEnv).2.2.looperReleases = 0 ∧
      (InitializeContext allOkInitEnv).2.1.ui_thread_looper_ = true ∧
      (Shutdown (InitializeContext allOkInitEnv).2.1).2.looperReleaseCount =
        1 ∧
      (Shutdown (Shutdown
        (InitializeContext allOkInitEnv).2.1).1).2.looperReleaseCount = 0) ∧
    ((InitializeContext allOkInitEnv).1 = false →
      (InitializeContext allOkInitEnv).2.2.looperReleases =
        (InitializeContext allOkInitEnv).2.2.looperAcquires ∧
      (InitializeContext allOkInitEnv).2.1.ui_thread_looper_ = false ∧
      (Shutdown (InitializeContext allOkInitEnv).2.1).2.looperReleaseCount =
        0) :=
  looper_acquired_released_once allOkInitEnv

/-- C8: `Shutdown` closes exactly the open pipe descriptors (read end then
write end, skipping any already `-1`), leaves every resource field cleared
(`-1` descriptors, null pointers, flags false), and is idempotent: a second
`Shutdown` on the resulting state releases nothing and leaves the state
unchanged. -/
theorem shutdown_idempotent (s : BridgeState) :
    (Shutdown s).2.closedFds =
      (if s.ui_thread_looper_callback_pipe_read ≠ -1 then
        [s.ui_thread_looper_callback_pipe_read] else []) ++
      (if s.ui_thread_looper_callback_pipe_write ≠ -1 then
        [s.ui_thread_looper_callback_pipe_write] else []) ∧
    (Shutdown s).1.ui_thread_looper_callback_pipe_read = -1 ∧
    (Shutdown s).1.ui_thread_looper_callback_pipe_write = -1 ∧
    (Shutdown s).1.ui_thread_looper_ = false ∧
    (Shutdown s).1.ui_thread_looper_callback_registered_ = false ∧
    (Shutdown s).1.configuration_ = false ∧
    (Shutdown s).1.activity_class_ = false ∧
    (Shutdown s).1.activity_ = false ∧
    (Shutdown s).1.activity_method_finish_ = false ∧
    (Shutdown s).1.asset_manager_ = false ∧
    (Shutdown s).1.asset_manager_jobject_ = false ∧
    (Shutdown s).1.app_ = false ∧
    Shutdown (Shutdown s).1 = ((Shutdown s).1, noShutdownEffects) := by
  simp [Shutdown, noShutdownEffects]

/-- C9: `InitializeApp` dereferences the application returned by the factory
with no null check before calling `OnInitialize()`: with a factory returning
null the dereference is reached (undefined behaviour, modelled as `none`),
and for any non-null factory result the function is defined. -/
theorem initializeApp_null_factory_deref (s : BridgeState) (onInit : Bool) :
    InitializeApp s false onInit = none ∧
    ∃ r, InitializeApp s true onInit = some r := by
  refine ⟨rfl, ?_⟩
  cases onInit
  · exact ⟨_, rfl⟩
  · exact ⟨_, rfl⟩

/-- C10: a callback invocation returns 0 iff it assigns false to the
registration flag; every invocation returning 1 performs no such assignment
and leaves the flag's value unchanged; and the spurious-wake case (no error
condition, no readable input) returns 1, performs no read (consumes nothing
from the channel) and leaves the flag unchanged. -/
theorem callback_return_zero_iff_unregisters (s : BridgeState) (events : Nat)
    (r : Int) (c : UIThreadLooperCallbackCommand) :
    ((UIThreadLooperCallback s events r c).ret = 0 ↔
      (UIThreadLooperCallback s events r c).flagAssignedFalse = true) ∧
    ((UIThreadLooperCallback s events r c).ret = 1 →
      (UIThreadLooperCallback s events r c).flagAssignedFalse = false ∧
      (UIThreadLooperCallback s events r c).registeredAfter =
        s.ui_thread_looper_callback_registered_) ∧
    (events &&&
        (ALOOPER_EVENT_ERROR ||| ALOOPER_EVENT_HANGUP |||
          ALOOPER_EVENT_INVALID) = 0 →
      events &&& ALOOPER_EVENT_INPUT = 0 →
      (UIThreadLooperCallback s events r c).ret = 1 ∧
      (UIThreadLooperCallback s events r c).readPerformed = false ∧
      (UIThreadLooperCallback s events r c).registeredAfter =
        s.ui_thread_looper_callback_registered_) := by
  unfold UIThreadLooperCallback
  by_cases he : events &&&
      (ALOOPER_EVENT_ERROR ||| ALOOPER_EVENT_HANGUP ||| ALOOPER_EVENT_INVALID)
      = 0 <;>
    by_cases hi : events &&& ALOOPER_EVENT_INPUT = 0 <;>
    by_cases hr : r = sizeofCommand <;>
    by_cases hr1 : r = -1 <;>
    cases c <;> simp_all

/-- Witness for C10 (the iff and the implications discharged) at a spurious
wake: no event bits set. -/
theorem callback_return_zero_iff_unregisters_witness :
    ((UIThreadLooperCallback registeredState 0 0 .kDestroy).ret = 0 ↔
      (UIThreadLooperCallback registeredState 0 0
        .kDestroy).flagAssignedFalse = true) ∧
    ((UIThreadLooperCallback registeredState 0 0 .kDestroy).ret = 1 →
      (UIThreadLooperCallback registeredState 0 0
        .kDestroy).flagAssignedFalse = false ∧
      (UIThreadLooperCallback registeredState 0 0
        .kDestroy).registeredAfter =
        registeredState.ui_thread_looper_callback_registered_) ∧
    ((0 : Nat) &&&
        (ALOOPER_EVENT_ERROR ||| ALOOPER_EVENT_HANGUP |||
          ALOOPER_EVENT_INVALID) = 0 →
      (0 : Nat) &&& ALOOPER_EVENT_INPUT = 0 →
      (UIThreadLooperCallback registeredState 0 0 .kDestroy).ret = 1 ∧
      (UIThreadLooperCallback registeredState 0 0
        .kDestroy).readPerformed = false ∧
      (UIThreadLooperCallback registeredState 0 0
        .kDestroy).registeredAfter =
        registeredState.ui_thread_looper_callback_registered_) :=
  callback_return_zero_iff_unregisters registeredState 0 0 .kDestroy

end AndroidWindowedAppContext
